import Mathlib

/-!  Shallow embedding of the data pipeline of `src/streamlit_app.py`
(Global MBM Dashboard).

A pandas `DataFrame` is modelled as a list of column names together with a
list of rows; a cell is an `Option String`, with `none` standing for a
pandas `NaN`.  `astype(str)` turns a `NaN` cell into the literal string
`"nan"`, which is what the source code's `"nan"` filters are about.

Numeric coercion (`pd.to_numeric(..., errors="coerce")`) is modelled for
integer literals, which covers every value the pipeline's claims exercise;
an unparsable string yields `none`, exactly like pandas' `NaN` coercion.

The external `pycountry.countries.lookup` service is a parameter of
`to_iso3`: a delegate of type `String → Except Unit String`, where
`Except.error` models the exception the source code catches.

pandas notes reflected here:
* `groupby` produces one group per distinct key; the claims proved below
  are insensitive to group ordering, so groups are enumerated in
  first-occurrence order of `List.dedup` rather than sorted order.
* `melt` enumerates value columns in column-major order (all rows of the
  first value column, then the second, ...), which is what `meltTable`
  does.
* When an id column (`No`, `Region`, `Country`) is absent pandas raises a
  `KeyError`; here a missing column reads as an all-`NaN` column, which
  only enlarges the set of reachable outputs, so the invariants proved
  below also cover the behaviours of the source.
-/

namespace MBM

/-- Python `str.strip` on a list of characters: drop leading and trailing
whitespace. -/
def stripChars (l : List Char) : List Char :=
  ((l.dropWhile Char.isWhitespace).reverse.dropWhile Char.isWhitespace).reverse

/-- Python `str.strip` on strings (whitespace per `Char.isWhitespace`). -/
def pyStrip (s : String) : String := ⟨stripChars s.data⟩

/-- Python `str.lower` (ASCII case folding, which covers every string the
pipeline compares). -/
def pyLower (s : String) : String := ⟨s.data.map Char.toLower⟩

/-- pandas `astype(str)`: a present cell keeps its text, a missing cell
(`NaN`) renders as the string `"nan"`. -/
def cellStr : Option String → String
  | none => "nan"
  | some s => s

/-- Source lines 18-27: map from numbered spreadsheet column name to the
canonical mechanism type label. -/
def MECH_COLS : List (String × String) :=
  [("1. Carbon Tax", "Carbon Tax"),
   ("2. ETS", "ETS"),
   ("3. Tax Incentives", "Tax Incentives"),
   ("4. Fuel Mandates", "Fuel Mandates"),
   ("5. VCM project", "VCM project"),
   ("6. Feebates", "Feebates"),
   ("7. CBAM", "CBAM"),
   ("8. AMC", "AMC")]

/-- Source line 29: the 8 canonical mechanism type labels. -/
def MECH_LIST : List String := MECH_COLS.map (fun p => p.2)

/-- Source lines 32-53: curated country-name → ISO3 override table. -/
def MANUAL_ISO3 : List (String × String) :=
  [("Côte d’Ivoire", "CIV"),
   ("Côte d'Ivoire", "CIV"),
   ("São Tomé and Príncipe", "STP"),
   ("Democratic Republic of the Congo", "COD"),
   ("Republic of the Congo", "COG"),
   ("United States", "USA"),
   ("Russia", "RUS"),
   ("Iran", "IRN"),
   ("Syria", "SYR"),
   ("Vatican City", "VAT"),
   ("North Korea", "PRK"),
   ("South Korea", "KOR"),
   ("Laos", "LAO"),
   ("Timor-Leste", "TLS"),
   ("Brunei Darussalam", "BRN"),
   ("Bolivia", "BOL"),
   ("Venezuela", "VEN"),
   ("Tanzania", "TZA"),
   ("Micronesia", "FSM"),
   ("Palestine", "PSE")]

/-- Source lines 55-63: resolve a country display name to an ISO3 code.
`lookup` is the delegated `pycountry.countries.lookup`; its `Except.error`
result models the exception the source catches (not found, ambiguous).
`name = none` models a Python `None` argument (`name or ""`). -/
def to_iso3 (lookup : String → Except Unit String) (name : Option String) :
    Option String :=
  let n := pyStrip (name.getD "")
  match List.lookup n MANUAL_ISO3 with
  | some code => some code
  | none =>
    match lookup n with
    | Except.ok c => some c
    | Except.error _ => none

/-- A raw spreadsheet table: column names (already stripped by `load_raw`,
source line 68) and rows of cells. -/
structure RawTable where
  cols : List String
  rows : List (List (Option String))
deriving DecidableEq

/-- Read the cell of column `c` in a row; a column that is not present
reads as `NaN`. -/
def getCell (cols : List String) (row : List (Option String)) (c : String) :
    Option String :=
  match cols.findIdx? (fun x => x == c) with
  | some i => (row.get? i).getD none
  | none => none

/-- Overwrite the cell of column `c` in a row (used for the in-place
`df["Country"] = ...` assignment of source line 79). -/
def setCell (cols : List String) (row : List (Option String)) (c : String)
    (v : Option String) : List (Option String) :=
  match cols.findIdx? (fun x => x == c) with
  | some i => row.set i v
  | none => row

/-- Source lines 73-74: the columns retained by `tidy_long`. -/
def keepColumns (cols : List String) : List String :=
  (["No", "Country", "Region"] ++ MECH_COLS.map (fun p => pyStrip p.1)
      ++ ["Total Mechanism"]).filter (fun c => cols.contains c)

/-- Source line 75: `df = df_raw[keep]`, projection onto the kept columns. -/
def selectKeep (t : RawTable) : RawTable :=
  { cols := keepColumns t.cols,
    rows := t.rows.map (fun r =>
      (keepColumns t.cols).map (fun c => getCell t.cols r c)) }

/-- Source lines 77-80: drop rows with a missing country, stringify and
strip the country, and drop a re-included header row (`"country"`). -/
def cleanCountryRows (t : RawTable) : RawTable :=
  { cols := t.cols,
    rows :=
      ((t.rows.filter (fun r => (getCell t.cols r "Country").isSome)).map
          (fun r => setCell t.cols r "Country"
            (some (pyStrip (cellStr (getCell t.cols r "Country")))))).filter
        (fun r => pyLower (cellStr (getCell t.cols r "Country")) != "country") }

/-- Source line 82: the mechanism columns that are present in the table. -/
def valueCols (cols : List String) : List String :=
  (MECH_COLS.map (fun p => pyStrip p.1)).filter (fun c => cols.contains c)

/-- One row of the melted long table (source lines 84-89), before the
type-mapping and text cleanup. -/
structure MeltRow where
  no : Option String
  Country : String
  Region : Option String
  mechanism_type_raw : String
  mechanism_detail : Option String
deriving DecidableEq

/-- Source lines 84-89: `df.melt(...)`, in pandas' column-major order.
After `cleanCountryRows` the `Country` cell is a present string, so it is
read back through `cellStr`. -/
def meltTable (t : RawTable) : List MeltRow :=
  (valueCols t.cols).flatMap (fun v =>
    t.rows.map (fun r =>
      { no := getCell t.cols r "No",
        Country := cellStr (getCell t.cols r "Country"),
        Region := getCell t.cols r "Region",
        mechanism_type_raw := v,
        mechanism_detail := getCell t.cols r v }))

/-- One row of the cleaned long table: a DetailRecord. -/
structure DetailRecord where
  no : Option String
  Country : String
  Region : Option String
  mechanism_type : String
  mechanism_detail : String
  vcm_projects : Option Int
deriving DecidableEq

/-- Source lines 91-94 and 97: map the numbered header to the canonical
label (falling back to the raw header when unmapped) and stringify/strip
the detail cell. -/
def toDetail (m : MeltRow) : DetailRecord :=
  { no := m.no,
    Country := m.Country,
    Region := m.Region,
    mechanism_type :=
      (List.lookup m.mechanism_type_raw
          (MECH_COLS.map (fun p => (pyStrip p.1, p.2)))).getD m.mechanism_type_raw,
    mechanism_detail := pyStrip (cellStr m.mechanism_detail),
    vcm_projects := none }

/-- Source line 98: keep only rows with a non-empty, non-`"nan"` detail. -/
def detailFilterOk (r : DetailRecord) : Bool :=
  (r.mechanism_detail != "") && (pyLower r.mechanism_detail != "nan")

/-- `pd.to_numeric(s, errors="coerce")` restricted to integer literals:
an optional minus sign followed by decimal digits; anything else coerces
to `none` (pandas `NaN`). -/
def to_numeric (s : String) : Option Int :=
  match s.data with
  | [] => none
  | '-' :: ds =>
    if ds.isEmpty then none
    else if ds.all Char.isDigit then
      some (-(Int.ofNat (ds.foldl (fun n c => 10 * n + (c.toNat - 48)) 0)))
    else none
  | ds =>
    if ds.all Char.isDigit then
      some (Int.ofNat (ds.foldl (fun n c => 10 * n + (c.toNat - 48)) 0))
    else none

/-- Source lines 100-103: populate `vcm_projects` by numeric coercion of
the detail text, for VCM rows only. -/
def setVcm (r : DetailRecord) : DetailRecord :=
  if r.mechanism_type = "VCM project" then
    { r with vcm_projects := to_numeric r.mechanism_detail }
  else r

/-- Source line 106: drop non-VCM rows whose detail is exactly `"0"`. -/
def dropZeroOk (r : DetailRecord) : Bool :=
  !((r.mechanism_type != "VCM project") && (r.mechanism_detail == "0"))

/-- Source lines 71-108: the reshaper.  Returns the cleaned wide table and
the long table of DetailRecords. -/
def tidy_long (t : RawTable) : RawTable × List DetailRecord :=
  let df := cleanCountryRows (selectKeep t)
  let long := ((meltTable df).map toDetail).filter detailFilterOk
  let long := (long.map setVcm).filter dropZeroOk
  (df, long)

/-- Ascending insertion of a string into a sorted list (Python `sorted`,
code-point order). -/
def insertSorted (a : String) : List String → List String
  | [] => [a]
  | b :: t => if a < b then a :: b :: t else b :: insertSorted a t

/-- Python `sorted` on strings (insertion sort, ascending). -/
def sortStr : List String → List String
  | [] => []
  | a :: t => insertSorted a (sortStr t)

/-- The distinct countries of a DetailRecords list, one per `groupby`
group (source lines 112-125). -/
def countries (l : List DetailRecord) : List String :=
  (l.map (fun r => r.Country)).dedup

/-- The distinct mechanism types recorded for one country: the groups of
`g.groupby("Country")["mechanism_type"]` (source lines 112-125). -/
def typesOf (l : List DetailRecord) (c : String) : List String :=
  ((l.filter (fun r => r.Country == c)).map (fun r => r.mechanism_type)).dedup

/-- Source lines 112-116: the deduplicated, sorted, `"; "`-joined detail
text of one (country, type) group. -/
def detailSet (l : List DetailRecord) (c ty : String) : String :=
  String.intercalate "; "
    (sortStr ((((l.filter (fun r => r.Country == c && r.mechanism_type == ty)).map
        (fun r => pyStrip r.mechanism_detail)).filter
          (fun x => (x != "") && (pyLower x != "nan"))).dedup))

/-- Source line 125: per-country distinct mechanism type count. -/
def countsOf (l : List DetailRecord) : List (String × Nat) :=
  (countries l).map (fun c => (c, (typesOf l c).length))

/-- Source lines 119-123: the numbered `<br>`-joined list of present
mechanism types of one country. -/
def typesListOf (l : List DetailRecord) : List (String × String) :=
  (countries l).map (fun c =>
    (c, String.intercalate "<br>"
          ((sortStr (typesOf l c)).enum.map
            (fun p => toString (p.1 + 1) ++ ". " ++ p.2))))

/-- Source lines 127-133: the VCM rows that carry a parsed numeric value. -/
def vcmRows (l : List DetailRecord) : List DetailRecord :=
  l.filter (fun r => (r.mechanism_type == "VCM project") && r.vcm_projects.isSome)

/-- Source lines 127-133: per-country sum of parsed VCM project counts. -/
def vcmOf (l : List DetailRecord) : List (String × Int) :=
  (countries (vcmRows l)).map (fun c =>
    (c, (((vcmRows l).filter (fun r => r.Country == c)).map
          (fun r => r.vcm_projects.getD 0)).sum))

/-- One row of the aggregator's output table `out` (source lines 110-138). -/
structure SummaryRow where
  Country : String
  mechanism_type_count : Nat
  mechanism_types_list_html : String
  vcm_projects_sum : Int
deriving DecidableEq

/-- Source lines 110-138: `summarize_mechanisms`.  One output row per
distinct country of the input; the two left merges of line 135 and the
`fillna` of lines 136-137 become lookups with defaults (the key lists are
deduplicated, so each lookup is unambiguous). -/
def summarize_mechanisms (l : List DetailRecord) : List SummaryRow :=
  (countsOf l).map (fun p =>
    { Country := p.1,
      mechanism_type_count := p.2,
      mechanism_types_list_html :=
        (List.lookup p.1 (typesListOf l)).getD "No recorded mechanisms in this dataset.",
      vcm_projects_sum := (List.lookup p.1 (vcmOf l)).getD 0 })

/-- One row of the base country table (source line 222). -/
structure BaseRow where
  Country : String
  Region : Option String
  iso3 : Option String
deriving DecidableEq

/-- One row of the merged map table `m` (source lines 228-231). -/
structure MapRow where
  Country : String
  Region : Option String
  iso3 : Option String
  mechanism_type_count : Nat
  mechanism_types_list_html : String
  vcm_projects_sum : Int
deriving DecidableEq

/-- The merged map rows produced for one base row: the summary rows whose
country matches, or — when none matches, i.e. the left join misses — the
`fillna` defaults of source lines 229-231 (count 0, sum 0, placeholder
text). -/
def mergeRowsFor (summary : List SummaryRow) (b : BaseRow) : List MapRow :=
  match summary.filter (fun s => s.Country == b.Country) with
  | [] =>
    [{ Country := b.Country, Region := b.Region, iso3 := b.iso3,
       mechanism_type_count := 0,
       mechanism_types_list_html := "No recorded mechanisms in this dataset.",
       vcm_projects_sum := 0 }]
  | m :: ms =>
    (m :: ms).map (fun s =>
      { Country := b.Country, Region := b.Region, iso3 := b.iso3,
        mechanism_type_count := s.mechanism_type_count,
        mechanism_types_list_html := s.mechanism_types_list_html,
        vcm_projects_sum := s.vcm_projects_sum })

/-- Source lines 228-231: left-merge the summary onto the base country
list, then fill the missing countries with zero counts and the placeholder
detail string. -/
def mergeBase (base : List BaseRow) (summary : List SummaryRow) : List MapRow :=
  base.flatMap (mergeRowsFor summary)

/-- Source lines 185-186: region filter (`isin`; a `NaN` region never
matches). -/
def regionFilterStep (sel : List String) (l : List DetailRecord) :
    List DetailRecord :=
  if sel.isEmpty then l
  else l.filter (fun r =>
    match r.Region with
    | some s => sel.contains s
    | none => false)

/-- Source lines 187-188: mechanism type filter (`isin`). -/
def typeFilterStep (sel : List String) (l : List DetailRecord) :
    List DetailRecord :=
  if sel.isEmpty then l else l.filter (fun r => sel.contains r.mechanism_type)

/-- Source lines 189-190: country filter (`isin`). -/
def countryFilterStep (sel : List String) (l : List DetailRecord) :
    List DetailRecord :=
  if sel.isEmpty then l else l.filter (fun r => sel.contains r.Country)

/-- Case-insensitive substring test on the character lists of the
lowercased strings (`str.contains(kw, case=False)` for a plain keyword). -/
def containsCI (s kw : String) : Bool :=
  go (pyLower kw).data (pyLower s).data
where
  go (n : List Char) : List Char → Bool
    | [] => n.isEmpty
    | c :: t => n.isPrefixOf (c :: t) || go n t

/-- Source lines 191-192: keyword filter on the detail text (the detail
column is never `NaN`, so `na=False` is moot). -/
def keywordFilterStep (kw : String) (l : List DetailRecord) :
    List DetailRecord :=
  if kw == "" then l else l.filter (fun r => containsCI r.mechanism_detail kw)

/-- Source lines 183-192: the sidebar filters applied to the long table,
in source order. -/
def applyFilters (rs ts cs : List String) (kw : String)
    (l : List DetailRecord) : List DetailRecord :=
  keywordFilterStep kw (countryFilterStep cs (typeFilterStep ts (regionFilterStep rs l)))

/-- Concrete raw table: one country with a Carbon Tax detail and a VCM
cell of `"0"`. -/
def rawC3 : RawTable :=
  { cols := ["No", "Country", "Region", "1. Carbon Tax", "5. VCM project"],
    rows := [[some "1", some "Chile", some "Americas", some "coal tax", some "0"]] }

/-- The Carbon Tax DetailRecord that `tidy_long rawC3` emits. -/
def recC3 : DetailRecord :=
  { no := some "1", Country := "Chile", Region := some "Americas",
    mechanism_type := "Carbon Tax", mechanism_detail := "coal tax",
    vcm_projects := none }

/-- The VCM DetailRecord that `tidy_long rawC3` emits: detail `"0"`,
coerced count `0`. -/
def recC3v : DetailRecord :=
  { no := some "1", Country := "Chile", Region := some "Americas",
    mechanism_type := "VCM project", mechanism_detail := "0",
    vcm_projects := some 0 }

/-- Concrete raw table: one country with VCM cells `"10"`, `"abc"`, `"5"`. -/
def rawC4 : RawTable :=
  { cols := ["No", "Country", "Region", "5. VCM project"],
    rows := [[some "1", some "Kenya", some "Africa", some "10"],
             [some "2", some "Kenya", some "Africa", some "abc"],
             [some "3", some "Kenya", some "Africa", some "5"]] }

/-- Concrete raw table with a mechanism-like column whose name matches
none of the eight numbered column names. -/
def rawC8 : RawTable :=
  { cols := ["No", "Country", "Region", "9. Subsidies"],
    rows := [[some "1", some "Freedonia", some "Europe", some "diesel subsidy"]] }

/-- The merged map row produced for a base country with no DetailRecords. -/
def rowC5 : MapRow :=
  { Country := "Atlantis", Region := some "Ocean", iso3 := some "ATL",
    mechanism_type_count := 0,
    mechanism_types_list_html := "No recorded mechanisms in this dataset.",
    vcm_projects_sum := 0 }

/-- `List.dropWhile` is idempotent. -/
theorem dropWhile_dropWhile {α : Type _} (p : α → Bool) (l : List α) :
    (l.dropWhile p).dropWhile p = l.dropWhile p := by
  induction l with
  | nil => rfl
  | cons a t ih =>
    by_cases h : p a = true
    · simp [List.dropWhile_cons, h, ih]
    · simp [List.dropWhile_cons, h]

/-- `List.dropWhile` never lengthens a list. -/
theorem length_dropWhile_le {α : Type _} (p : α → Bool) (l : List α) :
    (l.dropWhile p).length ≤ l.length := by
  induction l with
  | nil => simp
  | cons a t ih =>
    by_cases h : p a = true
    · rw [List.dropWhile_cons, if_pos h]
      exact Nat.le_succ_of_le ih
    · rw [List.dropWhile_cons, if_neg h]

/-- If `dropWhile p` fixes a list, the head fails `p`. -/
theorem dropWhile_head_not {α : Type _} (p : α → Bool) (l : List α) (a : α)
    (hl : l.dropWhile p = l) (ha : l.head? = some a) : p a = false := by
  cases l with
  | nil => simp at ha
  | cons b t =>
    have hab : a = b := by simpa using ha.symm
    subst hab
    by_cases h : p a = true
    · exfalso
      rw [List.dropWhile_cons, if_pos h] at hl
      have hle := length_dropWhile_le p t
      rw [hl] at hle
      simp at hle
    · simpa using h

/-- If every head fails `p`, `dropWhile p` fixes the list. -/
theorem dropWhile_eq_self_of_head {α : Type _} (p : α → Bool) (l : List α)
    (h : ∀ a, l.head? = some a → p a = false) : l.dropWhile p = l := by
  cases l with
  | nil => rfl
  | cons b t =>
    rw [List.dropWhile_cons, if_neg]
    simp [h b rfl]

/-- Stripping is idempotent on character lists. -/
theorem stripChars_idem (l : List Char) : stripChars (stripChars l) = stripChars l := by
  unfold stripChars
  set ws := Char.isWhitespace with hws
  set m := l.dropWhile ws with hmdef
  have hm2 : m.dropWhile ws = m := dropWhile_dropWhile ws l
  set S := (m.reverse.dropWhile ws).reverse with hSdef
  have hS1 : S.dropWhile ws = S := by
    apply dropWhile_eq_self_of_head
    intro a ha
    rw [hSdef, List.head?_reverse] at ha
    obtain ⟨pre, hpre⟩ := List.dropWhile_suffix (l := m.reverse) ws
    have hd : m.reverse.dropWhile ws ≠ [] := by
      intro h0
      rw [h0] at ha
      simp at ha
    have h2 : m.reverse.getLast? = some a := by
      rw [← hpre, List.getLast?_append_of_ne_nil _ hd, ha]
    rw [List.getLast?_reverse] at h2
    exact dropWhile_head_not ws m a hm2 h2
  have hS2 : S.reverse.dropWhile ws = S.reverse := by
    rw [hSdef, List.reverse_reverse]
    exact dropWhile_dropWhile ws m.reverse
  rw [hS1, hS2, List.reverse_reverse]

/-- Python `strip` is idempotent. -/
theorem pyStrip_idem (s : String) : pyStrip (pyStrip s) = pyStrip s := by
  show (⟨stripChars (stripChars s.data)⟩ : String) = ⟨stripChars s.data⟩
  rw [stripChars_idem]

/-- `setVcm` does not change the mechanism type. -/
theorem setVcm_type (r : DetailRecord) :
    (setVcm r).mechanism_type = r.mechanism_type := by
  unfold setVcm
  split <;> rfl

/-- `setVcm` does not change the detail text. -/
theorem setVcm_detail (r : DetailRecord) :
    (setVcm r).mechanism_detail = r.mechanism_detail := by
  unfold setVcm
  split <;> rfl

/-- Each of the eight numbered column names maps, through the source's
mapping-with-fallback of line 93, to one of the eight canonical labels. -/
theorem lookup_key_mem :
    ∀ v ∈ MECH_COLS.map (fun p => pyStrip p.1),
      (List.lookup v (MECH_COLS.map (fun p => (pyStrip p.1, p.2)))).getD v ∈ MECH_LIST := by
  decide

/-- Every record of the long table arises from a melted row of a
recognized mechanism column, survived the detail filter, got its VCM
coercion, and survived the zero filter. -/
theorem tidy_shape {t : RawTable} {r : DetailRecord} (h : r ∈ (tidy_long t).2) :
    dropZeroOk r = true ∧
    ∃ m : MeltRow, r = setVcm (toDetail m) ∧ detailFilterOk (toDetail m) = true ∧
      m.mechanism_type_raw ∈ MECH_COLS.map (fun p => pyStrip p.1) := by
  simp only [tidy_long] at h
  obtain ⟨h1, hdz⟩ := List.mem_filter.mp h
  obtain ⟨r', hr', rfl⟩ := List.mem_map.mp h1
  obtain ⟨h2, hok⟩ := List.mem_filter.mp hr'
  obtain ⟨m, hm, rfl⟩ := List.mem_map.mp h2
  refine ⟨hdz, m, rfl, hok, ?_⟩
  obtain ⟨v, hv, hrow⟩ := List.mem_flatMap.mp hm
  obtain ⟨row, hrowmem, rfl⟩ := List.mem_map.mp hrow
  exact (List.mem_filter.mp hv).1

/-- Invariant: every emitted mechanism type is one of the eight canonical
labels. -/
theorem tidy_type_mem {t : RawTable} {r : DetailRecord}
    (h : r ∈ (tidy_long t).2) : r.mechanism_type ∈ MECH_LIST := by
  obtain ⟨-, m, rfl, -, hraw⟩ := tidy_shape h
  rw [setVcm_type]
  exact lookup_key_mem _ hraw

/-- Invariant: every emitted detail text is non-empty, not `"nan"`, and
already stripped. -/
theorem tidy_detail_props {t : RawTable} {r : DetailRecord}
    (h : r ∈ (tidy_long t).2) :
    r.mechanism_detail ≠ "" ∧ pyLower r.mechanism_detail ≠ "nan" ∧
      pyStrip r.mechanism_detail = r.mechanism_detail := by
  obtain ⟨-, m, rfl, hok, -⟩ := tidy_shape h
  rw [setVcm_detail]
  unfold detailFilterOk at hok
  rw [Bool.and_eq_true, bne_iff_ne, bne_iff_ne] at hok
  refine ⟨hok.1, hok.2, ?_⟩
  exact pyStrip_idem _

/-- Each summary row's count is the distinct-type count of its country. -/
theorem summarize_count_val {l : List DetailRecord} {s : SummaryRow}
    (hs : s ∈ summarize_mechanisms l) :
    s.mechanism_type_count = (typesOf l s.Country).length := by
  unfold summarize_mechanisms at hs
  obtain ⟨p, hp, rfl⟩ := List.mem_map.mp hs
  unfold countsOf at hp
  obtain ⟨c, hc, rfl⟩ := List.mem_map.mp hp
  rfl

/-- Each summary row's country occurs in the input. -/
theorem summarize_country_mem {l : List DetailRecord} {s : SummaryRow}
    (hs : s ∈ summarize_mechanisms l) : s.Country ∈ countries l := by
  unfold summarize_mechanisms at hs
  obtain ⟨p, hp, rfl⟩ := List.mem_map.mp hs
  unfold countsOf at hp
  obtain ⟨c, hc, rfl⟩ := List.mem_map.mp hp
  exact hc

/-- Every country of the input owns a summary row. -/
theorem summarize_mem_of_country {l : List DetailRecord} {c : String}
    (hc : c ∈ countries l) :
    ∃ s ∈ summarize_mechanisms l, s.Country = c := by
  unfold summarize_mechanisms countsOf
  exact ⟨_, List.mem_map.mpr ⟨(c, (typesOf l c).length),
    List.mem_map.mpr ⟨c, hc, rfl⟩, rfl⟩, rfl⟩

/-- The aggregator emits at most one row per country. -/
theorem summarize_countP_le (l : List DetailRecord) (c : String) :
    (summarize_mechanisms l).countP (fun s => s.Country == c) ≤ 1 := by
  unfold summarize_mechanisms countsOf
  rw [List.countP_map, List.countP_map]
  show List.countP (fun c' : String => c' == c) (countries l) ≤ 1
  rw [← List.count_eq_countP]
  exact List.nodup_iff_count_le_one.mp (List.nodup_dedup _) c

/-- `countP` of a mapped list whose images all satisfy the predicate. -/
theorem countP_map_true {α β : Type _} (p : β → Bool) (f : α → β) (l : List α)
    (h : ∀ a, p (f a) = true) : (l.map f).countP p = l.length := by
  rw [List.countP_map, List.countP_eq_length]
  intro a _
  exact h a

/-- `countP` of a mapped list whose images all fail the predicate. -/
theorem countP_map_false {α β : Type _} (p : β → Bool) (f : α → β) (l : List α)
    (h : ∀ a, p (f a) = false) : (l.map f).countP p = 0 := by
  rw [List.countP_map, List.countP_eq_zero]
  intro a _
  simp [h a]

/-- A country is absent from `countries` exactly when it has no record. -/
theorem countries_not_mem_iff {l : List DetailRecord} {c : String} :
    c ∉ countries l ↔ l.filter (fun r => r.Country == c) = [] := by
  unfold countries
  rw [List.filter_eq_nil_iff, List.mem_dedup]
  simp

/-- A country with no record has no distinct mechanism types. -/
theorem typesOf_nil {l : List DetailRecord} {c : String}
    (h : l.filter (fun r => r.Country == c) = []) : typesOf l c = [] := by
  unfold typesOf
  rw [h]
  rfl

/-- With at most eight possible labels, the distinct-type count of a
country is at most 8. -/
theorem typesOf_le_8 {f : List DetailRecord} {c : String}
    (h8 : ∀ r ∈ f, r.mechanism_type ∈ MECH_LIST) :
    (typesOf f c).length ≤ 8 := by
  have hnd : (typesOf f c).Nodup := List.nodup_dedup _
  have hsub : (typesOf f c).toFinset ⊆ MECH_LIST.toFinset := by
    intro x hx
    rw [List.mem_toFinset] at hx ⊢
    unfold typesOf at hx
    rw [List.mem_dedup] at hx
    obtain ⟨r, hr, rfl⟩ := List.mem_map.mp hx
    exact h8 r (List.mem_filter.mp hr).1
  have hcard := Finset.card_le_card hsub
  rw [List.card_toFinset, List.card_toFinset, hnd.dedup] at hcard
  have h8' : MECH_LIST.dedup.length = 8 := by decide
  rw [h8'] at hcard
  exact hcard

/-- The merged rows of one base row: count per matched country. -/
theorem mergeRowsFor_countP (b : BaseRow) (s : List SummaryRow) (c : String)
    (hs : s.countP (fun x => x.Country == c) ≤ 1) :
    (mergeRowsFor s b).countP (fun row => row.Country == c)
      = if b.Country = c then 1 else 0 := by
  unfold mergeRowsFor
  cases hms : s.filter (fun x => x.Country == b.Country) with
  | nil =>
    by_cases hbc : b.Country = c
    · simp [List.countP_cons, hbc]
    · simp [List.countP_cons, hbc]
  | cons m ms =>
    dsimp only
    by_cases hbc : b.Country = c
    · subst hbc
      rw [if_pos rfl]
      rw [countP_map_true (fun row : MapRow => row.Country == b.Country)
        (fun x : SummaryRow =>
          ({ Country := b.Country, Region := b.Region, iso3 := b.iso3,
             mechanism_type_count := x.mechanism_type_count,
             mechanism_types_list_html := x.mechanism_types_list_html,
             vcm_projects_sum := x.vcm_projects_sum } : MapRow)) (m :: ms)
        (fun x => beq_iff_eq.mpr rfl)]
      rw [List.countP_eq_length_filter, hms] at hs
      simp only [List.length_cons] at hs ⊢
      omega
    · rw [if_neg hbc]
      apply countP_map_false
      intro x
      show (b.Country == c) = false
      simp [hbc]

/-- The left merge yields, per country, exactly as many rows as the base
list has, as long as the summary has at most one row for that country. -/
theorem mergeBase_countP (base : List BaseRow) (s : List SummaryRow) (c : String)
    (hs : s.countP (fun x => x.Country == c) ≤ 1) :
    (mergeBase base s).countP (fun row => row.Country == c)
      = base.countP (fun b => b.Country == c) := by
  induction base with
  | nil => rfl
  | cons b bt ih =>
    unfold mergeBase at ih ⊢
    rw [List.flatMap_cons, List.countP_append, ih, List.countP_cons,
      mergeRowsFor_countP b s c hs]
    by_cases hbc : b.Country = c
    · rw [if_pos hbc, if_pos (beq_iff_eq.mpr hbc)]
      omega
    · rw [if_neg hbc, if_neg]
      · omega
      · simp [hbc]

/-- Anatomy of one merged row: it carries its base row's country and
either the matched summary row's fields or the fill defaults. -/
theorem mergeRowsFor_mem {s : List SummaryRow} {b : BaseRow} {row : MapRow}
    (h : row ∈ mergeRowsFor s b) :
    row.Country = b.Country ∧
      ((s.filter (fun x => x.Country == b.Country) = [] ∧
          row.mechanism_type_count = 0 ∧ row.vcm_projects_sum = 0 ∧
          row.mechanism_types_list_html = "No recorded mechanisms in this dataset.") ∨
        (∃ x ∈ s, x.Country = b.Country ∧
          row.mechanism_type_count = x.mechanism_type_count ∧
          row.vcm_projects_sum = x.vcm_projects_sum ∧
          row.mechanism_types_list_html = x.mechanism_types_list_html)) := by
  unfold mergeRowsFor at h
  cases hms : s.filter (fun x => x.Country == b.Country) with
  | nil =>
    rw [hms] at h
    simp only [List.mem_singleton] at h
    subst h
    exact ⟨rfl, Or.inl ⟨rfl, rfl, rfl, rfl⟩⟩
  | cons m ms =>
    rw [hms] at h
    obtain ⟨x, hx, rfl⟩ := List.mem_map.mp h
    rw [← hms] at hx
    obtain ⟨hxs, hxc⟩ := List.mem_filter.mp hx
    exact ⟨rfl, Or.inr ⟨x, hxs, beq_iff_eq.mp hxc, rfl, rfl, rfl⟩⟩

/-- The region filter only removes records. -/
theorem regionFilterStep_mem {sel : List String} {l : List DetailRecord}
    {r : DetailRecord} (h : r ∈ regionFilterStep sel l) : r ∈ l := by
  unfold regionFilterStep at h
  split at h
  · exact h
  · exact (List.mem_filter.mp h).1

/-- The type filter only removes records. -/
theorem typeFilterStep_mem {sel : List String} {l : List DetailRecord}
    {r : DetailRecord} (h : r ∈ typeFilterStep sel l) : r ∈ l := by
  unfold typeFilterStep at h
  split at h
  · exact h
  · exact (List.mem_filter.mp h).1

/-- The country filter only removes records. -/
theorem countryFilterStep_mem {sel : List String} {l : List DetailRecord}
    {r : DetailRecord} (h : r ∈ countryFilterStep sel l) : r ∈ l := by
  unfold countryFilterStep at h
  split at h
  · exact h
  · exact (List.mem_filter.mp h).1

/-- The keyword filter only removes records. -/
theorem keywordFilterStep_mem {kw : String} {l : List DetailRecord}
    {r : DetailRecord} (h : r ∈ keywordFilterStep kw l) : r ∈ l := by
  unfold keywordFilterStep at h
  split at h
  · exact h
  · exact (List.mem_filter.mp h).1

/-- The sidebar filters only remove records. -/
theorem applyFilters_mem {rs ts cs : List String} {kw : String}
    {l : List DetailRecord} {r : DetailRecord}
    (h : r ∈ applyFilters rs ts cs kw l) : r ∈ l :=
  regionFilterStep_mem (typeFilterStep_mem (countryFilterStep_mem (keywordFilterStep_mem h)))

/-- An unmatched base row contributes exactly its fill-default row. -/
theorem mergeRowsFor_default_mem {s : List SummaryRow} {b : BaseRow}
    (h : s.filter (fun x => x.Country == b.Country) = []) :
    ({ Country := b.Country, Region := b.Region, iso3 := b.iso3,
       mechanism_type_count := 0,
       mechanism_types_list_html := "No recorded mechanisms in this dataset.",
       vcm_projects_sum := 0 } : MapRow) ∈ mergeRowsFor s b := by
  unfold mergeRowsFor
  rw [h]
  simp

/-- C1: for every country occurring exactly once in the caller-supplied
base list, the summarize step followed by the left merge yields exactly
one merged summary row for that country, and its `mechanism_type_count`
equals the number of distinct mechanism types with at least one
DetailRecord for that country in the filtered long table, and is at most 8
(hence lies in `[0, 8]`). -/
theorem C1_summary_unique_and_count (t : RawTable) (rs ts cs : List String)
    (kw : String) (base : List BaseRow) (c : String)
    (hb : base.countP (fun b => b.Country == c) = 1) :
    ((mergeBase base (summarize_mechanisms (applyFilters rs ts cs kw (tidy_long t).2))).countP
        (fun row => row.Country == c)) = 1 ∧
    ∀ row ∈ mergeBase base (summarize_mechanisms (applyFilters rs ts cs kw (tidy_long t).2)),
      row.Country = c →
        row.mechanism_type_count =
          (((applyFilters rs ts cs kw (tidy_long t).2).filter
              (fun r => r.Country == c)).map (fun r => r.mechanism_type)).toFinset.card ∧
        row.mechanism_type_count ≤ 8 := by
  constructor
  · rw [mergeBase_countP _ _ _ (summarize_countP_le _ c), hb]
  · intro row hrow hc
    obtain ⟨b, hbmem, hrowb⟩ := List.mem_flatMap.mp hrow
    obtain ⟨hrc, hcases⟩ := mergeRowsFor_mem hrowb
    have hbc : b.Country = c := by rw [← hrc, hc]
    have hcount : row.mechanism_type_count
        = (typesOf (applyFilters rs ts cs kw (tidy_long t).2) c).length := by
      rcases hcases with ⟨hnil, hcnt, -, -⟩ | ⟨x, hx, hxc, hcnt, -, -⟩
      · rw [hcnt]
        have hnotmem : c ∉ countries (applyFilters rs ts cs kw (tidy_long t).2) := by
          intro hcmem
          obtain ⟨s, hsmem, hsc⟩ := summarize_mem_of_country hcmem
          have hsf : s ∈ (summarize_mechanisms
              (applyFilters rs ts cs kw (tidy_long t).2)).filter
                (fun x => x.Country == b.Country) :=
            List.mem_filter.mpr ⟨hsmem, beq_iff_eq.mpr (by rw [hsc, ← hbc])⟩
          rw [hnil] at hsf
          simp at hsf
        rw [typesOf_nil (countries_not_mem_iff.mp hnotmem)]
        rfl
      · rw [hcnt, summarize_count_val hx, hxc, hbc]
    refine ⟨?_, ?_⟩
    · rw [hcount, List.card_toFinset]
      rfl
    · rw [hcount]
      exact typesOf_le_8 (fun r hr => tidy_type_mem (applyFilters_mem hr))

/-- Witness for C1 at a concrete table, base list and country. -/
theorem C1_witness :
    (mergeBase [⟨"Chile", some "Americas", some "CHL"⟩]
        (summarize_mechanisms (applyFilters [] [] [] "" (tidy_long rawC3).2))).countP
      (fun row => row.Country == "Chile") = 1 :=
  (C1_summary_unique_and_count rawC3 [] [] [] ""
    [⟨"Chile", some "Americas", some "CHL"⟩] "Chile" (by decide)).1

/-- C2: every DetailRecord emitted by the reshaper has a detail text that,
after trimming, is non-empty and not case-insensitively `"nan"`. -/
theorem C2_detail_nonempty_not_nan (t : RawTable) (r : DetailRecord)
    (h : r ∈ (tidy_long t).2) :
    pyStrip r.mechanism_detail ≠ "" ∧
      pyLower (pyStrip r.mechanism_detail) ≠ "nan" := by
  obtain ⟨h1, h2, h3⟩ := tidy_detail_props h
  rw [h3]
  exact ⟨h1, h2⟩

/-- Witness for C2 at a concrete table and record. -/
theorem C2_witness :
    pyStrip recC3.mechanism_detail ≠ "" ∧
      pyLower (pyStrip recC3.mechanism_detail) ≠ "nan" :=
  C2_detail_nonempty_not_nan rawC3 recC3 (by decide)

/-- C3: no emitted non-VCM record has detail text exactly `"0"`, while a
VCM record with detail `"0"` is retained (shown on a concrete table). -/
theorem C3_zero_rule :
    (∀ (t : RawTable) (r : DetailRecord), r ∈ (tidy_long t).2 →
        r.mechanism_type ≠ "VCM project" → r.mechanism_detail ≠ "0") ∧
    ∃ r ∈ (tidy_long rawC3).2,
      r.mechanism_type = "VCM project" ∧ r.mechanism_detail = "0" := by
  constructor
  · intro t r h hty hdet
    obtain ⟨hdz, -⟩ := tidy_shape h
    unfold dropZeroOk at hdz
    rw [show (r.mechanism_type != "VCM project") = true from bne_iff_ne.mpr hty,
      show (r.mechanism_detail == "0") = true from beq_iff_eq.mpr hdet] at hdz
    simp at hdz
  · exact ⟨recC3v, by decide, rfl, rfl⟩

/-- Witness for C3 at a concrete table and non-VCM record. -/
theorem C3_witness : recC3.mechanism_detail ≠ "0" :=
  C3_zero_rule.1 rawC3 recC3 (by decide) (by decide)

/-- C4: on VCM detail texts `"10"`, `"abc"`, `"5"` of one country, the
unparsable text `"abc"` carries no numeric value (`none`, not zero) and
the aggregated `vcm_projects_sum` is 15. -/
theorem C4_vcm_sum :
    ((tidy_long rawC4).2.map (fun r => r.vcm_projects)) = [some 10, none, some 5] ∧
    (summarize_mechanisms (tidy_long rawC4).2).map
        (fun s => (s.Country, s.vcm_projects_sum)) = [("Kenya", 15)] := by
  decide

/-- Counterexample for C5 as stated: the placeholder string written by the
merge is `"No recorded mechanisms in this dataset."`, which is not the
string `"no recorded mechanisms"`. -/
theorem C5_counterexample :
    (mergeBase [⟨"Atlantis", some "Ocean", some "ATL"⟩] (summarize_mechanisms [])).map
        (fun row => row.mechanism_types_list_html)
      = ["No recorded mechanisms in this dataset."] ∧
    ("No recorded mechanisms in this dataset." : String) ≠ "no recorded mechanisms" := by
  decide

/-- C5 (amended): a base country with no DetailRecord receives
`mechanism_type_count = 0`, `vcm_projects_sum = 0`, and the placeholder
detail string `"No recorded mechanisms in this dataset."`; such a merged
row exists whenever the country appears in the base list. -/
theorem C5_missing_country_defaults (l : List DetailRecord) (base : List BaseRow)
    (c : String) (hnone : l.filter (fun r => r.Country == c) = []) :
    (∀ row ∈ mergeBase base (summarize_mechanisms l), row.Country = c →
      row.mechanism_type_count = 0 ∧ row.vcm_projects_sum = 0 ∧
        row.mechanism_types_list_html = "No recorded mechanisms in this dataset.") ∧
    ((∃ b ∈ base, b.Country = c) →
      ∃ row ∈ mergeBase base (summarize_mechanisms l), row.Country = c) := by
  have hnotmem : c ∉ countries l := countries_not_mem_iff.mpr hnone
  have hfilnil : ∀ b : BaseRow, b.Country = c →
      (summarize_mechanisms l).filter (fun x => x.Country == b.Country) = [] := by
    intro b hbc
    rw [List.filter_eq_nil_iff]
    intro s hs hsc
    apply hnotmem
    have hsc2 : s.Country = c := by rw [beq_iff_eq.mp hsc, hbc]
    rw [← hsc2]
    exact summarize_country_mem hs
  constructor
  · intro row hrow hc
    obtain ⟨b, hbmem, hrowb⟩ := List.mem_flatMap.mp hrow
    obtain ⟨hrc, hcases⟩ := mergeRowsFor_mem hrowb
    have hbc : b.Country = c := by rw [← hrc, hc]
    rcases hcases with ⟨-, h1, h2, h3⟩ | ⟨x, hx, hxc, -, -, -⟩
    · exact ⟨h1, h2, h3⟩
    · exfalso
      have hsf : x ∈ (summarize_mechanisms l).filter (fun y => y.Country == b.Country) :=
        List.mem_filter.mpr ⟨hx, beq_iff_eq.mpr hxc⟩
      rw [hfilnil b hbc] at hsf
      simp at hsf
  · rintro ⟨b, hbmem, hbc⟩
    exact ⟨_, List.mem_flatMap.mpr ⟨b, hbmem, mergeRowsFor_default_mem (hfilnil b hbc)⟩, hbc⟩

/-- Witness for C5 (amended) at a concrete base list and empty record set. -/
theorem C5_witness :
    rowC5.mechanism_type_count = 0 ∧ rowC5.vcm_projects_sum = 0 ∧
      rowC5.mechanism_types_list_html = "No recorded mechanisms in this dataset." :=
  (C5_missing_country_defaults [] [⟨"Atlantis", some "Ocean", some "ATL"⟩]
      "Atlantis" (by decide)).1 rowC5 (by decide) rfl

/-- C6: both apostrophe variants of the Ivorian name resolve to `"CIV"`
through the curated override table, before any delegated lookup (the
delegate is universally quantified, so it is never consulted). -/
theorem C6_cote_divoire :
    ∀ lookup : String → Except Unit String,
      to_iso3 lookup (some "Côte d'Ivoire") = some "CIV" ∧
        to_iso3 lookup (some "Côte d’Ivoire") = some "CIV" :=
  fun _ => ⟨rfl, rfl⟩

/-- Witness for C6 at a concrete (always-failing) delegate. -/
theorem C6_witness :
    to_iso3 (fun _ => Except.error ()) (some "Côte d'Ivoire") = some "CIV" ∧
      to_iso3 (fun _ => Except.error ()) (some "Côte d’Ivoire") = some "CIV" :=
  C6_cote_divoire (fun _ => Except.error ())

/-- C7: `to_iso3` of `None` and of the empty string is the unresolved
result `none` (given that the delegated lookup fails on the empty string,
as `pycountry` does), and for any name missing from the override table a
failing delegated lookup yields `none` instead of propagating the
exception. -/
theorem C7_unresolved_inputs (lookup : String → Except Unit String)
    (hEmpty : lookup "" = Except.error ()) :
    to_iso3 lookup none = none ∧ to_iso3 lookup (some "") = none ∧
    ∀ name : String, List.lookup (pyStrip name) MANUAL_ISO3 = none →
      lookup (pyStrip name) = Except.error () →
      to_iso3 lookup (some name) = none := by
  refine ⟨?_, ?_, ?_⟩
  · show (match lookup "" with
      | Except.ok c => some c
      | Except.error _ => none) = none
    rw [hEmpty]
  · show (match lookup "" with
      | Except.ok c => some c
      | Except.error _ => none) = none
    rw [hEmpty]
  · intro name h1 h2
    unfold to_iso3
    simp only [Option.getD_some]
    rw [h1, h2]

/-- Witness for C7 at a concrete always-failing delegate. -/
theorem C7_witness :
    to_iso3 (fun _ => Except.error ()) none = none ∧
      to_iso3 (fun _ => Except.error ()) (some "") = none ∧
      to_iso3 (fun _ => Except.error ()) (some "Wakanda") = none :=
  ⟨(C7_unresolved_inputs (fun _ => Except.error ()) rfl).1,
   (C7_unresolved_inputs (fun _ => Except.error ()) rfl).2.1,
   (C7_unresolved_inputs (fun _ => Except.error ()) rfl).2.2 "Wakanda" (by decide) rfl⟩

/-- Counterexample for C8 as stated: a table with the mechanism-like
column `"9. Subsidies"` holding a valid detail cell yields no record
labelled `"9. Subsidies"` — in fact no record at all: the column is
dropped by the keep/value-column selection, not relabelled. -/
theorem C8_counterexample :
    (tidy_long rawC8).2.filter (fun r => r.mechanism_type == "9. Subsidies") = [] ∧
    (tidy_long rawC8).2 = [] := by
  decide

/-- C8 (amended): a column whose trimmed name does not exactly match any
of the eight numbered column names is dropped without error — no emitted
record ever carries a label outside the canonical eight, so the own-name
fallback of source line 93 is unreachable. -/
theorem C8_unrecognized_dropped (t : RawTable) (c : String)
    (hc : c ∉ MECH_LIST) :
    (tidy_long t).2.filter (fun r => r.mechanism_type == c) = [] := by
  rw [List.filter_eq_nil_iff]
  intro r hr hbe
  have hmem := tidy_type_mem hr
  rw [beq_iff_eq.mp hbe] at hmem
  exact hc hmem

/-- Witness for C8 (amended) at a concrete table and column name. -/
theorem C8_witness :
    (tidy_long rawC8).2.filter (fun r => r.mechanism_type == "9. Subsidies") = [] :=
  C8_unrecognized_dropped rawC8 "9. Subsidies" (by decide)

/-- C9: the keyword filter (`"tax"`) and the mechanism-type filter
(`["Carbon Tax"]`) commute on every DetailRecords list. -/
theorem C9_keyword_type_commute (l : List DetailRecord) :
    keywordFilterStep "tax" (typeFilterStep ["Carbon Tax"] l)
      = typeFilterStep ["Carbon Tax"] (keywordFilterStep "tax" l) := by
  have h1 : ∀ L : List DetailRecord, keywordFilterStep "tax" L
      = L.filter (fun r => containsCI r.mechanism_detail "tax") := by
    intro L
    unfold keywordFilterStep
    rw [if_neg (show ¬(("tax" == "") = true) from by decide)]
  have h2 : ∀ L : List DetailRecord, typeFilterStep ["Carbon Tax"] L
      = L.filter (fun r => (["Carbon Tax"] : List String).contains r.mechanism_type) := by
    intro L
    unfold typeFilterStep
    rw [if_neg (show ¬((["Carbon Tax"] : List String).isEmpty = true) from by decide)]
  rw [h1, h2, h1, h2, List.filter_filter, List.filter_filter]
  apply List.filter_congr
  intro x _
  exact Bool.and_comm _ _

/-- Witness for C9 at a concrete DetailRecords list. -/
theorem C9_witness :
    keywordFilterStep "tax" (typeFilterStep ["Carbon Tax"] (tidy_long rawC3).2)
      = typeFilterStep ["Carbon Tax"] (keywordFilterStep "tax" (tidy_long rawC3).2) :=
  C9_keyword_type_commute (tidy_long rawC3).2

/-- C10: every DetailRecord emitted by the reshaper carries one of the
eight canonical mechanism type labels. -/
theorem C10_types_canonical (t : RawTable) (r : DetailRecord)
    (h : r ∈ (tidy_long t).2) : r.mechanism_type ∈ MECH_LIST :=
  tidy_type_mem h

/-- Witness for C10 at a concrete table and record. -/
theorem C10_witness : recC3.mechanism_type ∈ MECH_LIST :=
  C10_types_canonical rawC3 recC3 (by decide)

end MBM
